import Mathlib

/-!
# Verification of the vocabulary-quiz session engine

Shallow embedding of the quiz state machine implemented in
`src/app/page.tsx` (the reducer `quizReducer`, the event handlers
`handleAnswer`, `handleNextQuestion`, `resetQuiz`, `togglePause`,
`toggleSpeedLevel`, the option synthesizer `generateRandomOptions`,
and the timer effects), together with theorems settling the spec's
claims about it.

Modelling conventions:
* JavaScript numbers used by the countdown are modelled as `Rat`.
  This is exact for speed levels 1 and 2, where every value the
  countdown computes (decrements 100 and 50, remaining times
  5000, 4950, …) is an exact binary64 float; at speed level 3 the
  program's decrement is the binary64 rounding of `100/3`, which the
  rational model does not capture, so no countdown-duration theorem
  below is stated at speed level 3.
* Array indexing `state.questions[i].word` throws a `TypeError` when
  `i` is out of range; reducer cases that perform such an access
  return `Option`, with `none` modelling the thrown exception.
  All other reducer cases always succeed.
* `Math.random`-driven shuffles are modelled by an arbitrary
  permutation-producing parameter.
-/

namespace VocabQuiz

/-- The `Question` record of `page.tsx` (`example` is a Lean keyword,
so the field is written `«example»`). -/
structure Question where
  word : String
  meaning : String
  «example» : String
  question : String
  options : List String
deriving Repr, DecidableEq

/-- The `QuizState` record of `page.tsx`. `currentAnswer` and
`isCorrect` are nullable in the source and become `Option` here. -/
structure QuizState where
  questions : List Question
  currentQuestionIndex : Nat
  userAnswers : List String
  score : Nat
  quizCompleted : Bool
  currentAnswer : Option String
  isCorrect : Option Bool
  shuffledOptions : List String
  fixedOptions : List String
  isPaused : Bool
  speedLevel : Nat
  showingAnswer : Bool
deriving Repr, DecidableEq

/-- The `QuizAction` union of `page.tsx`. -/
inductive QuizAction where
  | setQuestions (payload : List Question)
  | answerQuestion (payload : String)
  | nextQuestion
  | resetQuiz
  | setCurrentAnswer (payload : String)
  | checkAnswer
  | shuffleOptions (payload : List String)
  | setFixedOptions (payload : List String)
  | togglePause
  | setSpeedLevel (payload : Nat)
  | setShowingAnswer (payload : Bool)
deriving Repr, DecidableEq

/-- `initialState` from `page.tsx`. -/
def initialState : QuizState :=
  { questions := []
    currentQuestionIndex := 0
    userAnswers := []
    score := 0
    quizCompleted := false
    currentAnswer := none
    isCorrect := none
    shuffledOptions := []
    fixedOptions := []
    isPaused := false
    speedLevel := 1
    showingAnswer := false }

/-- `quizReducer` from `page.tsx`.  The `ANSWER_QUESTION` and
`CHECK_ANSWER` cases read `state.questions[state.currentQuestionIndex].word`,
which throws when the index is out of range; that is the `none` result.
`NEXT_QUESTION` compares `currentQuestionIndex` with
`questions.length - 1` using JavaScript integer arithmetic, so the
subtraction is over `Int` (for an empty list it is `-1`, never equal to
the index). -/
def quizReducer (state : QuizState) (action : QuizAction) : Option QuizState :=
  match action with
  | .setQuestions payload => some { initialState with questions := payload }
  | .answerQuestion payload =>
      match state.questions.get? state.currentQuestionIndex with
      | some q => some { state with
          userAnswers := state.userAnswers ++ [payload]
          score := if payload = q.word then state.score + 1 else state.score }
      | none => none
  | .setCurrentAnswer payload =>
      some { state with currentAnswer := some payload, showingAnswer := true }
  | .checkAnswer =>
      match state.questions.get? state.currentQuestionIndex with
      | some q => some { state with
          isCorrect := some (decide (state.currentAnswer = some q.word)) }
      | none => none
  | .nextQuestion => some { state with
      currentQuestionIndex := state.currentQuestionIndex + 1
      quizCompleted :=
        decide ((state.currentQuestionIndex : Int) = (state.questions.length : Int) - 1)
      currentAnswer := none
      isCorrect := none
      fixedOptions := []
      showingAnswer := false }
  | .resetQuiz => some { initialState with questions := state.questions }
  | .shuffleOptions payload => some { state with shuffledOptions := payload }
  | .setFixedOptions payload => some { state with fixedOptions := payload }
  | .togglePause => some { state with isPaused := !state.isPaused }
  | .setSpeedLevel payload => some { state with speedLevel := payload }
  | .setShowingAnswer payload => some { state with showingAnswer := payload }

/-- `handleAnswer` from `page.tsx`: dispatches `SET_CURRENT_ANSWER`
then `CHECK_ANSWER` (the `clearInterval` call touches only the
scheduler, modelled separately below).  Note that it dispatches no
`ANSWER_QUESTION` action: nothing in the component ever does. -/
def handleAnswer (answer : String) (state : QuizState) : Option QuizState :=
  (quizReducer state (.setCurrentAnswer answer)).bind
    (fun s1 => quizReducer s1 .checkAnswer)

/-- `handleNextQuestion` from `page.tsx` (the `clearTimeout` call
touches only the scheduler). -/
def handleNextQuestion (state : QuizState) : Option QuizState :=
  quizReducer state .nextQuestion

/-- `resetQuiz` from `page.tsx`. -/
def resetQuiz (state : QuizState) : Option QuizState :=
  quizReducer state .resetQuiz

/-- `togglePause` from `page.tsx`. -/
def togglePause (state : QuizState) : Option QuizState :=
  quizReducer state .togglePause

/-- `toggleSpeedLevel` from `page.tsx`: cycles 1 → 2 → 3 → 1. -/
def toggleSpeedLevel (state : QuizState) : Option QuizState :=
  quizReducer state (.setSpeedLevel (state.speedLevel % 3 + 1))

/-! ## Countdown scheduler (the timer effects of `page.tsx`) -/

/-- The per-tick decrement of the answering-phase interval callback:
`100 / ((state.speedLevel * 5) / 5)` in the source, in exact rational
arithmetic.  This equals the program's binary64 value at speed levels
1 and 2 (100 and 50 are exact floats) but not at speed level 3, where
the program computes `fl(100/3)`. -/
def tickDecrement (speedLevel : Nat) : Rat :=
  100 / (((speedLevel : Rat) * 5) / 5)

/-- Guard of the answering-phase timer effect:
`currentQuestion && !state.isPaused && state.currentAnswer === null`. -/
def answeringTimerActive (s : QuizState) : Bool :=
  (s.questions.get? s.currentQuestionIndex).isSome
    && !s.isPaused && s.currentAnswer.isNone

/-- One firing of the answering-phase interval callback on the raw
remaining time: `none` means the timeout branch ran (the callback
cleared the interval and invoked `handleAnswer(currentQuestion.word)`),
`some t` is the decremented remaining time.  The subtraction is exact
rational arithmetic, matching the program's float subtraction whenever
all values involved are exact binary64 floats (speed levels 1 and 2). -/
def answeringTick (speedLevel : Nat) (prevTime : Rat) : Option Rat :=
  if prevTime ≤ 100 then none else some (prevTime - tickDecrement speedLevel)

/-- One firing of the answering-phase interval callback against a full
component state: only runs when the effect's guard holds; on timeout it
invokes `handleAnswer` with the current question's `word` and sets the
remaining time to `0`. -/
def answeringTickStep (s : QuizState) (prevTime : Rat) :
    Option (QuizState × Rat) :=
  if answeringTimerActive s then
    match s.questions.get? s.currentQuestionIndex with
    | some q =>
        if prevTime ≤ 100 then
          (handleAnswer q.word s).map (fun s' => (s', 0))
        else some (s, prevTime - tickDecrement s.speedLevel)
    | none => none
  else some (s, prevTime)

/-- Number of interval firings until the timeout branch runs, starting
from remaining time `t` at a fixed speed level (fuel-bounded). -/
def ticksUntilTimeout (speedLevel : Nat) : Nat → Rat → Option Nat
  | 0, _ => none
  | fuel + 1, t =>
      match answeringTick speedLevel t with
      | none => some 1
      | some t' => (ticksUntilTimeout speedLevel fuel t').map (· + 1)

/-- The reducer state together with the `remainingTime` React state of
the component (a separate `useState`, not part of `QuizState`). -/
structure ComponentState where
  state : QuizState
  remainingTime : Rat
deriving Repr, DecidableEq

/-- Clicking the speed button: dispatches `SET_SPEED_LEVEL` with the
next cyclic level; `remainingTime` is untouched (only the option-shuffle
effect ever calls `setRemainingTime(5000)`, and it depends only on
`currentQuestion`). -/
def toggleSpeedLevelC (c : ComponentState) : Option ComponentState :=
  (toggleSpeedLevel c.state).map (fun s => { c with state := s })

/-- The reveal-phase timer adjustment effect of `page.tsx` (deps:
`state.isPaused`): while an answer is being shown, pausing clears the
pending `NEXT_QUESTION` timeout and resuming schedules a fresh one with
the constant delay 5000; otherwise the pending timeout is left alone.
`answerTimer` is the delay of the pending timeout, `none` when no
timeout is pending. -/
def adjustRevealTimer (s : QuizState) (answerTimer : Option Rat) : Option Rat :=
  if s.currentAnswer.isSome && s.showingAnswer then
    if s.isPaused then none else some 5000
  else answerTimer

/-! ## Option synthesis (`generateRandomOptions` and its effect) -/

/-- The distractor pool built inside `generateRandomOptions`:
`allQuestions.filter((q) => q.word !== correctAnswer).map((q) => q.word)`. -/
def otherWords (correctAnswer : String) (allQuestions : List Question) :
    List String :=
  (allQuestions.filter (fun q => q.word ≠ correctAnswer)).map (fun q => q.word)

/-- `generateRandomOptions` from `page.tsx`.  The source shuffles
`otherWords` with `sort(() => 0.5 - Math.random())` — an unspecified
reordering — and takes the first three; the reordering is the `shuffle`
parameter, constrained to be a permutation in the theorems below. -/
def generateRandomOptions (correctAnswer : String)
    (allQuestions : List Question) (shuffle : List String → List String) :
    List String :=
  (shuffle (otherWords correctAnswer allQuestions)).take 3

/-- The question list rebuilt by the empty-options effect:
every question gets `options := [q.word, ...generateRandomOptions(q.word, questions)]`
(each call draws fresh randomness, hence the per-index shuffle). -/
def synthesizeQuestions (qs : List Question)
    (shuffle : Nat → List String → List String) : List Question :=
  qs.mapIdx (fun i q =>
    { q with options := q.word :: generateRandomOptions q.word qs (shuffle i) })

/-- The empty-options effect of `page.tsx`: when the current question
exists and has no options, rebuild the whole list and dispatch
`SET_QUESTIONS`; otherwise (`none`) the effect dispatches nothing. -/
def synthesisEffect (s : QuizState)
    (shuffle : Nat → List String → List String) : Option QuizState :=
  match s.questions.get? s.currentQuestionIndex with
  | some q =>
      if q.options.length = 0 then
        quizReducer s (.setQuestions (synthesizeQuestions s.questions shuffle))
      else none
  | none => none

/-! ## Concrete fixtures used by counterexamples and witnesses -/

/-- A concrete question with native options. -/
def qCat : Question :=
  { word := "cat", meaning := "a feline", «example» := "the cat sat"
    question := "feline?", options := ["cat", "dog"] }

/-- A second concrete question with native options. -/
def qDog : Question :=
  { word := "dog", meaning := "a canine", «example» := "the dog ran"
    question := "canine?", options := ["dog", "cat"] }

/-- A question with an empty native options list. -/
def qCatEmpty : Question :=
  { word := "cat", meaning := "a feline", «example» := "the cat sat"
    question := "feline?", options := [] }

/-- A distinct question sharing the word `"cat"`, empty options. -/
def qCatEmpty2 : Question :=
  { word := "cat", meaning := "also a feline", «example» := "a cat purrs"
    question := "purring feline?", options := [] }

/-- A question with an empty native options list and word `"dog"`. -/
def qDogEmpty : Question :=
  { word := "dog", meaning := "a canine", «example» := "the dog ran"
    question := "canine?", options := [] }

/-- The state right after loading `[qCat, qDog]`. -/
def loadedTwo : QuizState :=
  { initialState with questions := [qCat, qDog] }

/-- `loadedTwo` after answering `"cat"` (the state `handleAnswer`
produces on question 0). -/
def timedOutState : QuizState :=
  { loadedTwo with
    currentAnswer := some "cat"
    isCorrect := some true
    showingAnswer := true }

/-- `loadedTwo` after answering `"dog"` (a wrong first selection). -/
def firstAnswered : QuizState :=
  { loadedTwo with
    currentAnswer := some "dog"
    isCorrect := some false
    showingAnswer := true }

/-- A reveal-phase state: answer selected, answer shown, not paused,
not completed. -/
def revealState : QuizState := timedOutState

/-- A mid-quiz state with accumulated progress whose current question
(index 1) has an empty options list. -/
def midQuiz : QuizState :=
  { initialState with
    questions := [qCatEmpty, qDogEmpty]
    currentQuestionIndex := 1
    score := 1
    userAnswers := ["cat"] }

/-- The state the empty-options effect dispatches from `midQuiz`. -/
def midQuizSynth : QuizState :=
  { initialState with
    questions := synthesizeQuestions midQuiz.questions (fun _ l => l) }

/-- The one-question session and its states after one and two
advances, used by the C3 witness. -/
def oneQ : QuizState := { initialState with questions := [qCat] }

/-- `oneQ` after one `Advance()`. -/
def oneQAfter1 : QuizState :=
  { oneQ with currentQuestionIndex := 1, quizCompleted := true }

/-- `oneQ` after two `Advance()` calls. -/
def oneQAfter2 : QuizState :=
  { oneQ with currentQuestionIndex := 2, quizCompleted := false }

/-- `revealState` paused, and paused-then-resumed. -/
def revealPaused : QuizState := { revealState with isPaused := true }

/-- `revealPaused` after the resume toggle. -/
def revealResumed : QuizState := { revealPaused with isPaused := false }

/-- The state produced by the second (overwriting) selection, used by
the C8 witness. -/
def secondAnswered : QuizState :=
  { firstAnswered with
    currentAnswer := some "cat"
    isCorrect := some true
    showingAnswer := true }

/-- The user-intent events of the engine: loading a question list,
selecting an answer, advancing, toggling pause, cycling the speed
level (the code's only `SET_SPEED_LEVEL` dispatch) and resetting. -/
inductive PublicOp where
  | load (qs : List Question)
  | selectAnswer (v : String)
  | advance
  | pauseToggle
  | cycleSpeed
  | reset

/-- Applying a public transition to a session state. -/
def applyOp (s : QuizState) : PublicOp → Option QuizState
  | .load qs => quizReducer s (.setQuestions qs)
  | .selectAnswer v => handleAnswer v s
  | .advance => handleNextQuestion s
  | .pauseToggle => togglePause s
  | .cycleSpeed => toggleSpeedLevel s
  | .reset => resetQuiz s

/-- Session states reachable from the initial state through public
transitions. -/
inductive Reachable : QuizState → Prop where
  | init : Reachable initialState
  | step {s s' : QuizState} {op : PublicOp} :
      Reachable s → applyOp s op = some s' → Reachable s'

/-! ## Claims -/

/-- C1: `SelectAnswer(value)` is claimed to set `selectedAnswer`,
compute `isCorrect`, append to `answers`, bump `score` iff correct and
set `revealing`.  Evaluating `handleAnswer` at the spec's own scenario
(`SelectAnswer("cat")` on question 0 of a fresh two-question session):
`selectedAnswer`, `isCorrect` and `revealing` behave as claimed, but
`score` stays `0` and `userAnswers` stays `[]` — `handleAnswer` never
dispatches `ANSWER_QUESTION`, the only reducer case that appends the
answer and increments the score. -/
theorem C1_score_never_incremented :
    (handleAnswer "cat" loadedTwo).map
        (fun s => (s.currentAnswer, s.isCorrect, s.showingAnswer,
                   s.score, s.userAnswers))
      = some (some "cat", some true, true, 0, []) := rfl

/-- C2: whenever the answering-phase countdown fires its timeout branch
(remaining time at most one decrement away from zero, session not
paused, no answer selected), the interval callback invokes
`handleAnswer` with the current question's `word`; the resulting state
has that word selected, `isCorrect = true`, and an unchanged score, so
a timeout is never scored as a miss. -/
theorem C2_timeout_scored_correct (s s' : QuizState) (q : Question) (t : Rat)
    (hq : s.questions.get? s.currentQuestionIndex = some q)
    (hp : s.isPaused = false)
    (ha : s.currentAnswer = none)
    (ht : t ≤ 100)
    (hstep : handleAnswer q.word s = some s') :
    answeringTickStep s t = some (s', 0) ∧
    s'.currentAnswer = some q.word ∧
    s'.isCorrect = some true ∧
    s'.score = s.score := by
  rw [List.get?_eq_getElem?] at hq
  have hact : answeringTimerActive s = true := by
    simp [answeringTimerActive, hp, ha, hq]
  have hcanon : handleAnswer q.word s = some { s with
      currentAnswer := some q.word
      showingAnswer := true
      isCorrect := some true } := by
    simp [handleAnswer, quizReducer, hq]
  have hs' : s' = { s with
      currentAnswer := some q.word
      showingAnswer := true
      isCorrect := some true } := by
    rw [hcanon] at hstep
    exact (Option.some_inj.mp hstep).symm
  subst hs'
  refine ⟨?_, rfl, rfl, rfl⟩
  simp [answeringTickStep, hact, hq, ht, hcanon]

/-- Witness for C2 at `loadedTwo`, question `qCat`, remaining time 100. -/
theorem C2_witness :
    answeringTickStep loadedTwo 100 = some (timedOutState, 0) ∧
    timedOutState.currentAnswer = some "cat" ∧
    timedOutState.isCorrect = some true ∧
    timedOutState.score = loadedTwo.score := by
  have h := C2_timeout_scored_correct loadedTwo timedOutState qCat 100
    rfl rfl rfl le_rfl rfl
  simpa using h

/-- C3 as stated is false: `Advance()` on a completed session is not a
no-op.  Loading one question and advancing twice: the first advance
sets `completed = true` (index 1), but the second advance moves the
index to 2 (beyond `len(questions) = 1`) and resets `completed` to
`false`. -/
theorem C3_counterexample :
    ((quizReducer { initialState with questions := [qCat] } .nextQuestion).map
        (fun s => (s.quizCompleted, s.currentQuestionIndex)) = some (true, 1))
    ∧ (((quizReducer { initialState with questions := [qCat] } .nextQuestion).bind
        (fun s1 => quizReducer s1 .nextQuestion)).map
        (fun s => (s.quizCompleted, s.currentQuestionIndex)) = some (false, 2)) :=
  ⟨rfl, rfl⟩

/-- C3 amended: `Advance()` when `currentIndex` is the last question
index sets `completed` to true and increments `currentIndex` to
`len(questions)`; a subsequent `Advance()` on the completed session is
not a no-op — it increments `currentIndex` to `len(questions) + 1` and
resets `completed` to `false` (the UI merely disables the skip button
while `completed` holds). -/
theorem C3_advance_last (s s1 s2 : QuizState)
    (hlast : (s.currentQuestionIndex : Int) = (s.questions.length : Int) - 1)
    (h1 : handleNextQuestion s = some s1)
    (h2 : handleNextQuestion s1 = some s2) :
    s1.quizCompleted = true ∧
    s1.currentQuestionIndex = s.questions.length ∧
    s2.currentQuestionIndex = s.questions.length + 1 ∧
    s2.quizCompleted = false := by
  have hidx : s.currentQuestionIndex + 1 = s.questions.length := by omega
  have hs1 : s1 = { s with
      currentQuestionIndex := s.currentQuestionIndex + 1
      quizCompleted := decide ((s.currentQuestionIndex : Int)
        = (s.questions.length : Int) - 1)
      currentAnswer := none
      isCorrect := none
      fixedOptions := []
      showingAnswer := false } := by
    rw [show handleNextQuestion s = some { s with
        currentQuestionIndex := s.currentQuestionIndex + 1
        quizCompleted := decide ((s.currentQuestionIndex : Int)
          = (s.questions.length : Int) - 1)
        currentAnswer := none
        isCorrect := none
        fixedOptions := []
        showingAnswer := false } from rfl] at h1
    exact (Option.some_inj.mp h1).symm
  have hs2 : s2 = { s1 with
      currentQuestionIndex := s1.currentQuestionIndex + 1
      quizCompleted := decide ((s1.currentQuestionIndex : Int)
        = (s1.questions.length : Int) - 1)
      currentAnswer := none
      isCorrect := none
      fixedOptions := []
      showingAnswer := false } := by
    rw [show handleNextQuestion s1 = some { s1 with
        currentQuestionIndex := s1.currentQuestionIndex + 1
        quizCompleted := decide ((s1.currentQuestionIndex : Int)
          = (s1.questions.length : Int) - 1)
        currentAnswer := none
        isCorrect := none
        fixedOptions := []
        showingAnswer := false } from rfl] at h2
    exact (Option.some_inj.mp h2).symm
  subst hs2
  subst hs1
  refine ⟨?_, hidx, hidx ▸ rfl, ?_⟩
  · show decide ((s.currentQuestionIndex : Int)
      = (s.questions.length : Int) - 1) = true
    rw [decide_eq_true_eq]
    exact hlast
  · show decide (((s.currentQuestionIndex + 1 : Nat) : Int)
      = (s.questions.length : Int) - 1) = false
    rw [decide_eq_false_iff_not]
    omega

/-- Witness for C3 at the one-question session. -/
theorem C3_witness :
    oneQAfter1.quizCompleted = true ∧
    oneQAfter1.currentQuestionIndex = oneQ.questions.length ∧
    oneQAfter2.currentQuestionIndex = oneQ.questions.length + 1 ∧
    oneQAfter2.quizCompleted = false :=
  C3_advance_last oneQ oneQAfter1 oneQAfter2 (by decide) rfl rfl

/-- C4 as stated is false: `Load([])` (a `SET_QUESTIONS` dispatch with
the empty list) yields `completed = false`, not `completed = true`. -/
theorem C4_counterexample :
    (quizReducer initialState (.setQuestions [])).map
      (fun s => (s.quizCompleted, s.score)) = some (false, 0) := rfl

/-- C4 amended: `Load([])` produces a session with `completed = false`
and `score = 0`, and the answering-phase countdown never starts because
its guard requires a current question (which an empty list cannot
supply). -/
theorem C4_load_empty (s s' : QuizState)
    (h : quizReducer s (.setQuestions []) = some s') :
    s'.quizCompleted = false ∧ s'.score = 0 ∧
    answeringTimerActive s' = false := by
  have hs' : s' = { initialState with questions := [] } := by
    simp [quizReducer] at h
    exact h.symm
  subst hs'
  refine ⟨rfl, rfl, ?_⟩
  simp [answeringTimerActive, initialState]

/-- Witness for C4 at the fresh engine. -/
theorem C4_witness :
    ({ initialState with questions := ([] : List Question) } : QuizState).quizCompleted = false ∧
    ({ initialState with questions := ([] : List Question) } : QuizState).score = 0 ∧
    answeringTimerActive { initialState with questions := ([] : List Question) } = false :=
  C4_load_empty initialState { initialState with questions := [] } rfl

/-- C5: during the reveal phase (answer selected and shown, quiz not
completed), pausing clears the pending `NEXT_QUESTION` timeout
(whatever portion of it had elapsed is discarded with it), and
resuming schedules a fresh timeout whose delay is the constant 5000 —
independent of the discarded timer — so no auto-advance can fire
earlier than 5000 time-units after the resume. -/
theorem C5_pause_discards_resume_restarts (s p r : QuizState)
    (t t' : Option Rat)
    (ha : s.currentAnswer.isSome = true)
    (hsh : s.showingAnswer = true)
    (_hnc : s.quizCompleted = false)
    (hrun : s.isPaused = false)
    (hp : togglePause s = some p)
    (hr : togglePause p = some r) :
    adjustRevealTimer p t = none ∧ adjustRevealTimer r t' = some 5000 := by
  have hpv : p = { s with isPaused := !s.isPaused } := by
    rw [show togglePause s = some { s with isPaused := !s.isPaused } from rfl] at hp
    exact (Option.some_inj.mp hp).symm
  have hrv : r = { p with isPaused := !p.isPaused } := by
    rw [show togglePause p = some { p with isPaused := !p.isPaused } from rfl] at hr
    exact (Option.some_inj.mp hr).symm
  subst hrv
  subst hpv
  constructor
  · simp [adjustRevealTimer, ha, hsh, hrun]
  · simp [adjustRevealTimer, ha, hsh, hrun]

/-- Witness for C5 at a concrete reveal-phase state, with pending
delays 1234 and 99 showing independence from the discarded timer. -/
theorem C5_witness :
    adjustRevealTimer revealPaused (some 1234) = none ∧
    adjustRevealTimer revealResumed (some 99) = some 5000 :=
  C5_pause_discards_resume_restarts revealState revealPaused revealResumed
    (some 1234) (some 99) rfl rfl rfl rfl rfl rfl

lemma tickDecrement_one : tickDecrement 1 = 100 := by
  norm_num [tickDecrement]

lemma tickDecrement_two : tickDecrement 2 = 50 := by
  norm_num [tickDecrement]

/-- If the first `j` firings all see a remaining time above the
threshold and the `(j+1)`-st does not, the timeout branch runs on
firing `j + 1`. -/
lemma ticksUntilTimeout_of_run (n j : Nat) :
    ∀ (fuel : Nat) (t : Rat), j + 1 ≤ fuel →
      (∀ i : Nat, i < j → ¬ t - (i : Rat) * tickDecrement n ≤ 100) →
      t - (j : Rat) * tickDecrement n ≤ 100 →
      ticksUntilTimeout n fuel t = some (j + 1) := by
  induction j with
  | zero =>
    intro fuel t hfuel hlt hle
    cases fuel with
    | zero => exact absurd hfuel (by omega)
    | succ f =>
      have ht : t ≤ 100 := by simpa using hle
      simp [ticksUntilTimeout, answeringTick, ht]
  | succ j ih =>
    intro fuel t hfuel hlt hle
    cases fuel with
    | zero => exact absurd hfuel (by omega)
    | succ f =>
      have ht : ¬ t ≤ 100 := by simpa using hlt 0 (Nat.succ_pos j)
      have hlt' : ∀ i : Nat, i < j →
          ¬ t - tickDecrement n - (i : Rat) * tickDecrement n ≤ 100 := by
        intro i hi
        have h := hlt (i + 1) (by omega)
        have heq : t - ((i + 1 : Nat) : Rat) * tickDecrement n
            = t - tickDecrement n - (i : Rat) * tickDecrement n := by
          push_cast
          ring
        rwa [heq] at h
      have hle' : t - tickDecrement n - (j : Rat) * tickDecrement n ≤ 100 := by
        have heq : t - ((j + 1 : Nat) : Rat) * tickDecrement n
            = t - tickDecrement n - (j : Rat) * tickDecrement n := by
          push_cast
          ring
        rwa [heq] at hle
      have hrec := ih f (t - tickDecrement n) (by omega) hlt' hle'
      simp [ticksUntilTimeout, answeringTick, ht, hrec]

/-- Speed level 1: the timeout fires on the 50th firing. -/
lemma ticks_speed1 : ticksUntilTimeout 1 60 5000 = some 50 := by
  refine ticksUntilTimeout_of_run 1 49 60 5000 (by omega) ?_ ?_
  · intro i hi
    rw [tickDecrement_one]
    have hi' : (i : Rat) ≤ 48 := by exact_mod_cast Nat.lt_succ_iff.mp hi
    intro hcon
    linarith
  · rw [tickDecrement_one]
    norm_num

/-- Speed level 2: the timeout fires on the 99th firing. -/
lemma ticks_speed2 : ticksUntilTimeout 2 110 5000 = some 99 := by
  refine ticksUntilTimeout_of_run 2 98 110 5000 (by omega) ?_ ?_
  · intro i hi
    rw [tickDecrement_two]
    have hi' : (i : Rat) ≤ 97 := by exact_mod_cast Nat.lt_succ_iff.mp hi
    intro hcon
    linarith
  · rw [tickDecrement_two]
    norm_num

/-- C6 as stated is false at `speedLevel = 2`: the countdown starts at
5000 (not `n × 5000`) and the timeout branch fires on the tick whose
incoming value is at most 100, so an uninterrupted answering phase at
speed 2 takes 99 ticks of 100 time-units — 9900 time-units, not
`2 × 5000 = 10000`. (At speed 2 every value the source computes is an
exact binary float, so the rational model is exact.) -/
theorem C6_counterexample :
    (ticksUntilTimeout 2 110 5000).map (fun k => 100 * k) = some 9900 ∧
    (9900 : Nat) ≠ 2 * 5000 := by
  rw [ticks_speed2]
  exact ⟨rfl, by omega⟩

/-- C6 amended: the countdown always starts at 5000 and is decremented
by the computed `100 / speedLevel` per 100-time-unit tick, timing out
on the tick whose incoming value is at most 100.  At speed levels 1
and 2 every value the program computes is an exact binary64 float
(decrements 100 and 50), so the rational model is exact there:
uninterrupted, the phase takes 50 and 99 ticks — 5000 and 9900
time-units, `speedLevel × 5` seconds only for `speedLevel = 1`.  At
speed level 3 the program's binary64 decrement is `fl(100/3)`, not the
rational `100 / 3`, so the speed-3 duration lies outside this exact
model and is not asserted.  The speed-button handler changes only the
reducer's `speedLevel` (hence only the decrement applied per future
tick) and never touches `remainingTime`, so for every speed level the
remaining-time value has no discontinuous jump. -/
theorem C6_countdown (c c' : ComponentState)
    (h : toggleSpeedLevelC c = some c') :
    tickDecrement 1 = 100 ∧ tickDecrement 2 = 50 ∧
    ticksUntilTimeout 1 60 5000 = some 50 ∧
    ticksUntilTimeout 2 110 5000 = some 99 ∧
    c'.remainingTime = c.remainingTime ∧
    c'.state.speedLevel = c.state.speedLevel % 3 + 1 := by
  have hc : c' = { c with
      state := { c.state with speedLevel := c.state.speedLevel % 3 + 1 } } := by
    rw [show toggleSpeedLevelC c = some { c with
        state := { c.state with speedLevel := c.state.speedLevel % 3 + 1 } }
      from rfl] at h
    exact (Option.some_inj.mp h).symm
  subst hc
  exact ⟨tickDecrement_one, tickDecrement_two,
    ticks_speed1, ticks_speed2, rfl, rfl⟩

/-- Witness for C6 at a concrete component state. -/
theorem C6_witness :
    tickDecrement 1 = 100 ∧ tickDecrement 2 = 50 ∧
    ticksUntilTimeout 1 60 5000 = some 50 ∧
    ticksUntilTimeout 2 110 5000 = some 99 ∧
    ({ state := { loadedTwo with speedLevel := 2 }, remainingTime := 3700 }
        : ComponentState).remainingTime
      = ({ state := loadedTwo, remainingTime := 3700 }
        : ComponentState).remainingTime ∧
    ({ state := { loadedTwo with speedLevel := 2 }, remainingTime := 3700 }
        : ComponentState).state.speedLevel
      = ({ state := loadedTwo, remainingTime := 3700 }
        : ComponentState).state.speedLevel % 3 + 1 :=
  C6_countdown { state := loadedTwo, remainingTime := 3700 }
    { state := { loadedTwo with speedLevel := 2 }, remainingTime := 3700 } rfl

/-- C7 as stated is false when two loaded questions share a word: with
`[qCatEmpty, qCatEmpty2]` (both words `"cat"`), question 0 has one
other question, so the claim demands `min(3, 1) = 1` distractor, but
the filter `q.word !== correctAnswer` empties the pool and the
synthesized distractor list is empty (the identity reordering used
here is a permutation of that empty pool). -/
theorem C7_counterexample :
    (generateRandomOptions "cat" [qCatEmpty, qCatEmpty2] (fun l => l)).length = 0 ∧
    min 3 ([qCatEmpty, qCatEmpty2].length - 1) = 1 := by
  constructor
  · rfl
  · rfl

/-- C7 amended: for a question `q` of the loaded list (in particular
one whose native options are empty), the synthesized option list
`q.word :: generateRandomOptions q.word qs shuffle` — for any
permutation `shuffle` modelling the random sort — contains `q.word`
exactly once, carries `min 3 k` distractors where `k` is the number of
loaded questions whose word differs from `q.word` (not the number of
other questions), draws them without replacement from that pool, and
contains no word that is not the word of some loaded question. -/
theorem C7_synthesized_options (q : Question) (qs : List Question)
    (shuffle : List String → List String)
    (hmem : q ∈ qs) (_hopts : q.options = [])
    (hperm : ∀ l : List String, (shuffle l).Perm l) :
    (q.word :: generateRandomOptions q.word qs shuffle).count q.word = 1 ∧
    (generateRandomOptions q.word qs shuffle).length
      = min 3 ((qs.filter (fun p => p.word ≠ q.word)).length) ∧
    List.Subperm (generateRandomOptions q.word qs shuffle)
      (otherWords q.word qs) ∧
    (∀ w ∈ q.word :: generateRandomOptions q.word qs shuffle,
      ∃ p ∈ qs, p.word = w) := by
  have hsub : ∀ w ∈ generateRandomOptions q.word qs shuffle,
      w ∈ otherWords q.word qs := by
    intro w hw
    have h1 : w ∈ shuffle (otherWords q.word qs) :=
      List.mem_of_mem_take hw
    exact (hperm (otherWords q.word qs)).mem_iff.mp h1
  have hnotq : ∀ w ∈ generateRandomOptions q.word qs shuffle, w ≠ q.word := by
    intro w hw
    have h2 := hsub w hw
    simp only [otherWords, List.mem_map, List.mem_filter] at h2
    obtain ⟨p, ⟨_, hpne⟩, hpw⟩ := h2
    intro hcontra
    rw [hcontra] at hpw
    simp at hpne
    exact hpne hpw
  refine ⟨?_, ?_, ?_, ?_⟩
  · rw [List.count_cons_self]
    have : (generateRandomOptions q.word qs shuffle).count q.word = 0 := by
      rw [List.count_eq_zero]
      intro hc
      exact hnotq q.word hc rfl
    omega
  · unfold generateRandomOptions
    rw [List.length_take, (hperm (otherWords q.word qs)).length_eq]
    unfold otherWords
    rw [List.length_map]
  · exact ((List.take_sublist 3 _).subperm).trans
      (hperm (otherWords q.word qs)).subperm
  · intro w hw
    rcases List.mem_cons.mp hw with hw | hw
    · exact ⟨q, hmem, hw.symm⟩
    · have h2 := hsub w hw
      simp only [otherWords, List.mem_map, List.mem_filter] at h2
      obtain ⟨p, ⟨hpmem, _⟩, hpw⟩ := h2
      exact ⟨p, hpmem, hpw⟩

/-- Witness for C7 at the two-word list `[qCatEmpty, qDogEmpty]` with
the identity permutation. -/
theorem C7_witness :
    ((qCatEmpty.word :: generateRandomOptions qCatEmpty.word
        [qCatEmpty, qDogEmpty] (fun l => l)).count qCatEmpty.word = 1) ∧
    ((generateRandomOptions qCatEmpty.word [qCatEmpty, qDogEmpty]
        (fun l => l)).length
      = min 3 (([qCatEmpty, qDogEmpty].filter
          (fun p => p.word ≠ qCatEmpty.word)).length)) ∧
    List.Subperm
      (generateRandomOptions qCatEmpty.word [qCatEmpty, qDogEmpty]
        (fun l => l))
      (otherWords qCatEmpty.word [qCatEmpty, qDogEmpty]) ∧
    (∀ w ∈ qCatEmpty.word :: generateRandomOptions qCatEmpty.word
        [qCatEmpty, qDogEmpty] (fun l => l),
      ∃ p ∈ [qCatEmpty, qDogEmpty], p.word = w) :=
  C7_synthesized_options qCatEmpty [qCatEmpty, qDogEmpty] (fun l => l)
    (by simp) rfl (fun l => List.Perm.refl l)

/-- C8 as stated is false: `handleAnswer` carries no guard, so a
second `SelectAnswer` while an answer is already selected is not a
no-op.  After selecting `"dog"` (wrong) on question 0 of `loadedTwo`,
a second `handleAnswer "cat"` overwrites `selectedAnswer` with `"cat"`
and flips `isCorrect` from `false` to `true`. -/
theorem C8_counterexample :
    ((handleAnswer "dog" loadedTwo).map
        (fun s => (s.currentAnswer, s.isCorrect))
      = some (some "dog", some false)) ∧
    (((handleAnswer "dog" loadedTwo).bind (handleAnswer "cat")).map
        (fun s => (s.currentAnswer, s.isCorrect))
      = some (some "cat", some true)) :=
  ⟨rfl, rfl⟩

/-- C8 amended: a second `SelectAnswer(v)` while an answer is selected
is not ignored — it overwrites `selectedAnswer` with `v` and recomputes
`isCorrect` against the current question — but it leaves `answers`
(`userAnswers`) and `score` unchanged, so no double-counting of the
score can occur (the UI separately disables the option buttons while
`selectedAnswer` is set). -/
theorem C8_second_select_overwrites (s s' : QuizState) (q : Question)
    (v : String)
    (hq : s.questions.get? s.currentQuestionIndex = some q)
    (_hsel : s.currentAnswer.isSome = true)
    (h : handleAnswer v s = some s') :
    s'.currentAnswer = some v ∧
    s'.isCorrect = some (decide (v = q.word)) ∧
    s'.userAnswers = s.userAnswers ∧
    s'.score = s.score := by
  rw [List.get?_eq_getElem?] at hq
  have hcanon : handleAnswer v s = some { s with
      currentAnswer := some v
      showingAnswer := true
      isCorrect := some (decide (v = q.word)) } := by
    simp [handleAnswer, quizReducer, hq]
  rw [hcanon] at h
  have hs' := (Option.some_inj.mp h).symm
  subst hs'
  exact ⟨rfl, rfl, rfl, rfl⟩

/-- Witness for C8: second selection on `firstAnswered`. -/
theorem C8_witness :
    secondAnswered.currentAnswer = some "cat" ∧
    secondAnswered.isCorrect = some (decide ("cat" = qCat.word)) ∧
    secondAnswered.userAnswers = firstAnswered.userAnswers ∧
    secondAnswered.score = firstAnswered.score :=
  C8_second_select_overwrites firstAnswered secondAnswered qCat "cat"
    rfl rfl rfl

/-- C9: on every reachable session state — i.e. after every public
transition (Load, SelectAnswer, Advance, TogglePause, the speed-level
change, Reset) — `selectedAnswer ≠ None ⟺ isCorrect ≠ None`. -/
theorem C9_answer_flags_linked (s : QuizState) (h : Reachable s) :
    (s.currentAnswer ≠ none ↔ s.isCorrect ≠ none) := by
  induction h with
  | init => simp [initialState]
  | @step s s' op _ hop ih =>
    cases op with
    | load qs =>
      have hs' : s' = { initialState with questions := qs } := by
        simp [applyOp, quizReducer] at hop
        exact hop.symm
      subst hs'
      simp [initialState]
    | selectAnswer v =>
      cases hg : s.questions[s.currentQuestionIndex]? with
      | none =>
        rw [show applyOp s (.selectAnswer v) = none by
          simp [applyOp, handleAnswer, quizReducer, hg]] at hop
        cases hop
      | some q =>
        rw [show applyOp s (.selectAnswer v) = some { s with
            currentAnswer := some v
            showingAnswer := true
            isCorrect := some (decide (v = q.word)) } by
          simp [applyOp, handleAnswer, quizReducer, hg]] at hop
        have hs' := (Option.some_inj.mp hop).symm
        subst hs'
        simp
    | advance =>
      have hs' : s' = { s with
          currentQuestionIndex := s.currentQuestionIndex + 1
          quizCompleted := decide ((s.currentQuestionIndex : Int)
            = (s.questions.length : Int) - 1)
          currentAnswer := none
          isCorrect := none
          fixedOptions := []
          showingAnswer := false } := by
        simp [applyOp, handleNextQuestion, quizReducer] at hop
        exact hop.symm
      subst hs'
      simp
    | pauseToggle =>
      have hs' : s' = { s with isPaused := !s.isPaused } := by
        simp [applyOp, togglePause, quizReducer] at hop
        exact hop.symm
      subst hs'
      simpa using ih
    | cycleSpeed =>
      have hs' : s' = { s with speedLevel := s.speedLevel % 3 + 1 } := by
        simp [applyOp, toggleSpeedLevel, quizReducer] at hop
        exact hop.symm
      subst hs'
      simpa using ih
    | reset =>
      have hs' : s' = { initialState with questions := s.questions } := by
        simp [applyOp, resetQuiz, quizReducer] at hop
        exact hop.symm
      subst hs'
      simp [initialState]

/-- Witness for C9 at the initial state. -/
theorem C9_witness :
    (initialState.currentAnswer ≠ none ↔ initialState.isCorrect ≠ none) :=
  C9_answer_flags_linked initialState Reachable.init

/-- C10: whenever the current question's options list is empty, the
synthesis effect rebuilds the entire question list and dispatches
`SET_QUESTIONS`, whose reducer case spreads `initialState`; the
resulting state has `currentQuestionIndex`, `score`, `userAnswers`,
`currentAnswer`, `isCorrect` and `quizCompleted` back at their initial
values, regardless of any progress accumulated in `s` — mid-quiz
synthesis discards all progress instead of only changing the current
question's options. -/
theorem C10_synthesis_discards_progress (s s' : QuizState)
    (shuffle : Nat → List String → List String)
    (h : synthesisEffect s shuffle = some s') :
    s'.questions = synthesizeQuestions s.questions shuffle ∧
    s'.currentQuestionIndex = 0 ∧
    s'.score = 0 ∧
    s'.userAnswers = [] ∧
    s'.currentAnswer = none ∧
    s'.isCorrect = none ∧
    s'.quizCompleted = false := by
  cases hg : s.questions[s.currentQuestionIndex]? with
  | none =>
    rw [show synthesisEffect s shuffle = none by
      simp [synthesisEffect, hg]] at h
    cases h
  | some q =>
    by_cases he : q.options.length = 0
    · rw [show synthesisEffect s shuffle = some { initialState with
          questions := synthesizeQuestions s.questions shuffle } by
        simp [synthesisEffect, quizReducer, hg, he]] at h
      have hs' := (Option.some_inj.mp h).symm
      subst hs'
      exact ⟨rfl, rfl, rfl, rfl, rfl, rfl, rfl⟩
    · rw [show synthesisEffect s shuffle = none by
        simp [synthesisEffect, hg, he]] at h
      cases h

/-- Witness for C10 at `midQuiz` (index 1, score 1, one recorded
answer): the dispatched state has everything reset. -/
theorem C10_witness :
    midQuizSynth.questions
      = synthesizeQuestions midQuiz.questions (fun _ l => l) ∧
    midQuizSynth.currentQuestionIndex = 0 ∧
    midQuizSynth.score = 0 ∧
    midQuizSynth.userAnswers = [] ∧
    midQuizSynth.currentAnswer = none ∧
    midQuizSynth.isCorrect = none ∧
    midQuizSynth.quizCompleted = false :=
  C10_synthesis_discards_progress midQuiz midQuizSynth (fun _ l => l) rfl

end VocabQuiz
